import Mathlib

/-!
Verification of the crawl-and-extract pipeline (lab_5_scraper/scraper.py and
lab_6_pipeline/pipeline.py) against its natural-language specification.

Python strings are modelled as Lean strings; the primitive operations the
source uses (startswith, substring membership, regular-expression prefix
matching) are defined below by structural recursion over the character list,
so that every definition is executable and every predicate is decidable.
-/

/-- Bool test that the first list is an initial segment of the second
(used to model Python str.startswith and anchored regular expressions). -/
def charsPre : List Char → List Char → Bool
  | [], _ => true
  | _ :: _, [] => false
  | a :: as, b :: bs => a == b && charsPre as bs

/-- Python s.startswith(p). -/
def strStartsWith (s p : String) : Bool := charsPre p.data s.data

/-- Occurrence of pat as a contiguous sublist (Python substring membership). -/
def charsOccurs (pat : List Char) : List Char → Bool
  | [] => pat.isEmpty
  | c :: cs => charsPre pat (c :: cs) || charsOccurs pat cs

/-- Python pat in s. -/
def strContainsSub (s pat : String) : Bool := charsOccurs pat.data s.data

/-- Bool test that the first list is a final segment of the second. -/
def charsEndWith (s pat : List Char) : Bool := charsPre pat.reverse s.reverse

/-- Code points opening the contiguous runs of ten decimal digits that make
up the Unicode Nd category of Unicode 14.0 (the table used by CPython 3.11,
whose re module matches any of these characters for a backslash-d in a str
pattern and whose int accepts them).  Every Nd character sits in exactly one
such run, at the offset equal to its decimal value. -/
def ndRunStarts : List Nat :=
  [0x30, 0x660, 0x6F0, 0x7C0, 0x966, 0x9E6, 0xA66, 0xAE6,
   0xB66, 0xBE6, 0xC66, 0xCE6, 0xD66, 0xDE6, 0xE50, 0xED0,
   0xF20, 0x1040, 0x1090, 0x17E0, 0x1810, 0x1946, 0x19D0, 0x1A80,
   0x1A90, 0x1B50, 0x1BB0, 0x1C40, 0x1C50, 0xA620, 0xA8D0, 0xA900,
   0xA9D0, 0xA9F0, 0xAA50, 0xABF0, 0xFF10, 0x104A0, 0x10D30, 0x11066,
   0x110F0, 0x11136, 0x111D0, 0x112F0, 0x11450, 0x114D0, 0x11650, 0x116C0,
   0x11730, 0x118E0, 0x11950, 0x11C50, 0x11D50, 0x11DA0, 0x16A60, 0x16AC0,
   0x16B50, 0x1D7CE, 0x1D7D8, 0x1D7E2, 0x1D7EC, 0x1D7F6, 0x1E140, 0x1E2F0,
   0x1E950, 0x1FBF0]

/-- Decimal value of a Unicode decimal digit character, none for every
other character. -/
def ndDigitVal (c : Char) : Option Nat :=
  (ndRunStarts.find? (fun s => s ≤ c.toNat && c.toNat < s + 10)).map
    (fun s => c.toNat - s)

/-- Whether a character is a Unicode decimal digit (category Nd), the
character class matched by backslash-d of the Python re module on str. -/
def isNdDigit (c : Char) : Bool := (ndDigitVal c).isSome

/-- Numeric value of a list of Unicode decimal digit characters
(int applied to the captured group of a regular expression; int converts
digit for digit through the Unicode decimal value, so mixed scripts are
accepted). -/
def digitsVal : List Char → Nat :=
  List.foldl (fun a c => 10 * a + (ndDigitVal c).getD 0) 0

/-!
Python values and the configuration record.

The configuration file is dynamically typed, so every field of ConfigDTO
(scraper.py 87-95) can hold a value of any Python type; validation inspects
the runtime types.  PyVal is a small universe of the Python values involved.
A dict is modelled by the list of its values in insertion order, because
validation only ever inspects headers.values(); its keys are never read.
-/

inductive PyVal where
  | pstr (s : String)
  | pint (n : Int)
  | pbool (b : Bool)
  | pnone
  | plist (xs : List PyVal)
  | pdict (vals : List PyVal)

/-- ConfigDTO (core_utils, populated by Config._extract_config_content,
scraper.py 87-95): the seven configuration fields, each a runtime value. -/
structure ConfigDTO where
  seed_urls : PyVal
  total_articles : PyVal
  headers : PyVal
  encoding : PyVal
  timeout : PyVal
  should_verify_certificate : PyVal
  headless_mode : PyVal

/-- The seven exception classes raised by Config._validate_config_content
(scraper.py 27-52). -/
inductive ConfigError where
  | incorrectSeedURL
  | numberOfArticlesOutOfRange
  | incorrectNumberOfArticles
  | incorrectHeaders
  | incorrectEncoding
  | incorrectTimeout
  | incorrectVerify
deriving DecidableEq

def pyIsDict : PyVal → Bool
  | .pdict _ => true
  | _ => false

def pyDictVals : PyVal → List PyVal
  | .pdict vs => vs
  | _ => []

def pyIsList : PyVal → Bool
  | .plist _ => true
  | _ => false

def pyListItems : PyVal → List PyVal
  | .plist xs => xs
  | _ => []

def pyIsStr : PyVal → Bool
  | .pstr _ => true
  | _ => false

def pyIsBool : PyVal → Bool
  | .pbool _ => true
  | _ => false

/-- Python isinstance(v, int): bool is a subclass of int, so both int and
bool values pass this test. -/
def pyIsInstInt : PyVal → Bool
  | .pint _ => true
  | .pbool _ => true
  | _ => false

/-- Integer value of an int-like Python value (True counts as 1, False as 0);
0 for the other variants, which is only read behind a pyIsInstInt guard. -/
def pyIntVal : PyVal → Int
  | .pint n => n
  | .pbool true => 1
  | .pbool false => 0
  | _ => 0

/-- Whether Python str(v) contains a literal newline character
(scraper.py 107-109).  Only a plain string can: str of an int, a bool or
None never contains a newline, and str of a list or dict renders nested
strings through repr, which shows a newline as a two-character escape
sequence rather than a literal newline. -/
def pyStrHasNL : PyVal → Bool
  | .pstr s => s.data.contains '\n'
  | _ => false

/-- Python re.match applied to the pattern https?://.*/ (scraper.py 114-116):
the string must begin with http:// or https:// and a slash must occur
somewhere after that prefix, before any newline (the dot of the pattern does
not match a newline). -/
def seedUrlMatches (url : String) : Bool :=
  (charsPre "http://".data url.data
      && ((url.data.drop 7).takeWhile (fun c => c != '\n')).contains '/')
    || (charsPre "https://".data url.data
      && ((url.data.drop 8).takeWhile (fun c => c != '\n')).contains '/')

/-- One seed url passes validation (scraper.py 115-117): it is a string and
the anchored pattern matches. -/
def seedElemOk : PyVal → Bool
  | .pstr s => seedUrlMatches s
  | _ => false

/-- NUM_ARTICLES_UPPER_LIMIT (config/constants.py). -/
def NUM_ARTICLES_UPPER_LIMIT : Int := 150

/-- TIMEOUT_LOWER_LIMIT (config/constants.py). -/
def TIMEOUT_LOWER_LIMIT : Int := 0

/-- TIMEOUT_UPPER_LIMIT (config/constants.py). -/
def TIMEOUT_UPPER_LIMIT : Int := 60

/-- Config._validate_config_content (scraper.py 97-145), check for check in
source order.  Each Python if ...: raise E becomes one ite returning the
error kind; a loop that raises at its first offending element is rendered
with List.any / List.all, which raises the same kind.  The duplicated
headers check of line 129-130 is kept (it can never fire). -/
def validate_config_content (dto : ConfigDTO) : Except ConfigError Unit :=
  if ¬ pyIsDict dto.headers then .error .incorrectHeaders
  else if (pyDictVals dto.headers).any pyStrHasNL then .error .incorrectHeaders
  else if ¬ pyIsList dto.seed_urls then .error .incorrectSeedURL
  else if ¬ (pyListItems dto.seed_urls).all seedElemOk then .error .incorrectSeedURL
  else if ¬ pyIsInstInt dto.total_articles ∨ pyIsBool dto.total_articles
      ∨ pyIntVal dto.total_articles < 1 then .error .incorrectNumberOfArticles
  else if pyIntVal dto.total_articles > NUM_ARTICLES_UPPER_LIMIT then
    .error .numberOfArticlesOutOfRange
  else if ¬ pyIsDict dto.headers then .error .incorrectHeaders
  else if ¬ pyIsStr dto.encoding then .error .incorrectEncoding
  else if ¬ (pyIsInstInt dto.timeout ∧ TIMEOUT_LOWER_LIMIT < pyIntVal dto.timeout
      ∧ pyIntVal dto.timeout < TIMEOUT_UPPER_LIMIT) then .error .incorrectTimeout
  else if ¬ pyIsBool dto.should_verify_certificate then .error .incorrectVerify
  else if ¬ pyIsBool dto.headless_mode then .error .incorrectVerify
  else .ok ()

/-!
The HTTP boundary and the crawler (scraper.py 211-302).

A document, for the purposes of Crawler._extract_url, is the list of href
attribute values of its anchor tags that carry an href attribute, in
document order; BeautifulSoup find with href=True returns the first of
them.  The network is a function from url to the outcome of requests.get:
either a raised transport exception or a response with a status code and a
parsed document.  find is stateless, so calling _extract_url twice on the
same soup returns the same first anchor.
-/

structure Document where
  anchors : List String
deriving DecidableEq

inductive NetResult where
  | transport (msg : String)
  | response (status : Nat) (doc : Document)

def Net : Type := String → NetResult

/-- The exceptions a request can raise: a requests.RequestException from
requests.get itself, or the requests.HTTPError raised by raise_for_status
for a status code of 400 or above.  Both are subclasses of
requests.RequestException and of Exception. -/
inductive ReqError where
  | requestException (msg : String)
  | httpError (status : Nat)
deriving DecidableEq

/-- make_request (scraper.py 211-236): perform the GET; raise_for_status
raises for any 4xx or 5xx status; the except clause only prints and
re-raises, so every failure propagates to the caller and a returned
response always has a status below 400. -/
def make_request (net : Net) (url : String) : Except ReqError (Nat × Document) :=
  match net url with
  | .transport msg => .error (.requestException msg)
  | .response status doc =>
    if 400 ≤ status then .error (.httpError status) else .ok (status, doc)

/-- Crawler._extract_url (scraper.py 254-269): take the first anchor with an
href attribute; no anchor or an empty href gives the empty string; an href
beginning with a slash is prefixed with the site origin; otherwise the href
passes through when it begins with http and is discarded when it does not. -/
def extract_url (doc : Document) : String :=
  match doc.anchors with
  | [] => ""
  | href :: _ =>
    if href = "" then ""
    else if strStartsWith href "/" then "https://klops.ru" ++ href
    else if strStartsWith href "http" then href
    else ""

/-- Side effects performed by the discovery loop, in order: an HTTP fetch of
a url, or a call of time.sleep.  The sleepFor constructor exists so that the
absence of any pacing delay is expressible; find_articles never emits it
(scraper.py imports randint and sleep at lines 12-13 but never calls them). -/
inductive Event where
  | fetch (url : String)
  | sleepFor (seconds : Nat)
deriving DecidableEq

/-- Outcome of one Crawler.find_articles call: normal completion with the
collected url list, an exception escaping with the urls collected so far
still stored on the object, or (fuel-indexed) failure of the inner while
loop to finish within the given number of iterations. -/
inductive CrawlOutcome where
  | done (urls : List String)
  | raised (e : ReqError) (urls : List String)
  | fuelOut (urls : List String)
deriving DecidableEq

/-- The inner while loop of Crawler.find_articles (scraper.py 290-293),
indexed by fuel (a bound on the number of iterations) because the source
loop need not terminate: each iteration re-extracts the first anchor of the
unchanged soup, appends it unless it contains the denylist substring, and
repeats while the extracted url is nonempty and the target is unreached.
Returns none when the loop is still running after fuel iterations. -/
def extract_loop (doc : Document) (target : Nat) : Nat → List String → Option (List String)
  | 0, _ => none
  | fuel + 1, urls =>
    let extracted := extract_url doc
    if extracted ≠ "" ∧ urls.length < target then
      extract_loop doc target fuel
        (if strContainsSub extracted "problematic_article_id=3" then urls
         else urls ++ [extracted])
    else some urls

/-- The seed loop of Crawler.find_articles (scraper.py 272-293): stop when
the target is reached; fetch the seed through make_request, whose exception
propagates (there is no try around it); the not-ok continue branch of line
284-285 is kept although a returned response always has status below 400;
otherwise run the inner extraction loop and move to the next seed.  The
trace records every side effect: no sleep is ever issued between fetches. -/
def find_articles_from (net : Net) (target fuel : Nat) :
    List String → List String → List Event → CrawlOutcome × List Event
  | [], urls, tr => (.done urls, tr)
  | seed :: rest, urls, tr =>
    if target ≤ urls.length then (.done urls, tr)
    else
      match make_request net seed with
      | .error e => (.raised e urls, tr ++ [.fetch seed])
      | .ok (status, doc) =>
        if status < 400 then
          match extract_loop doc target fuel urls with
          | none => (.fuelOut urls, tr ++ [.fetch seed])
          | some urls2 => find_articles_from net target fuel rest urls2 (tr ++ [.fetch seed])
        else
          find_articles_from net target fuel rest urls (tr ++ [.fetch seed])

/-- Crawler.find_articles on a freshly constructed crawler: self.urls starts
empty (scraper.py 251) and the event trace starts empty. -/
def find_articles (net : Net) (seeds : List String) (target fuel : Nat) :
    CrawlOutcome × List Event :=
  find_articles_from net target fuel seeds [] []

def Event.isSleepEvent : Event → Bool
  | .sleepFor _ => true
  | .fetch _ => false

/-!
The article extractor (scraper.py 308-422).
-/

/-- Modelled from the spec: the ArticleRecord of section 3, as far as parse
touches it (core_utils.article.Article is not part of the sources).  A fresh
record carries the url and the id and an empty body text. -/
structure Article where
  url : String
  article_id : Nat
  text : String
deriving DecidableEq

/-- Python " " * n. -/
def mkSpaces (n : Nat) : String := String.mk (List.replicate n ' ')

/-- Python str(e) for the two request exceptions; the exact wording is an
approximation of the message produced by the requests library and no claim
depends on it. -/
def reqErrorStr : ReqError → String
  | .requestException msg => msg
  | .httpError status => toString status ++ " Client Error"

/-- HTMLParser.parse before the final padding (scraper.py 407-417): fetch
the url; on success run the body extraction on the parsed soup; the not-ok
branch (unreachable, since make_request raises on every status of 400 or
above) writes the failed-fetch placeholder; any exception raised by the
fetch or by the extraction is caught and converted to the error placeholder.
The body extraction step is the parameter fill, ranging over every possible
behaviour of _fill_article_with_text on the parsed document, including
raising an exception; the boundary guarantees below therefore hold whatever
the BeautifulSoup queries of scraper.py 328-347 do. -/
def parse_body (fill : Document → Except String String) (net : Net)
    (full_url : String) (article_id : Nat) : Article :=
  let art : Article := { url := full_url, article_id := article_id, text := "" }
  match make_request net full_url with
  | .ok (status, doc) =>
    if status < 400 then
      match fill doc with
      | .ok t => { art with text := t }
      | .error msg =>
        { art with text := "Error parsing article: " ++ msg
            ++ ". Minimum required placeholder text." }
    else
      { art with text := "Failed to fetch article (HTTP " ++ toString status
          ++ "). Minimum required placeholder text." }
  | .error e =>
    { art with text := "Error parsing article: " ++ reqErrorStr e
        ++ ". Minimum required placeholder text." }

/-- The final padding step of HTMLParser.parse (scraper.py 419-420): a body
text shorter than 50 characters is extended with spaces up to 50. -/
def padText (art : Article) : Article :=
  if art.text.length < 50 then
    { art with text := art.text ++ mkSpaces (50 - art.text.length) }
  else art

/-- HTMLParser.parse (scraper.py 400-422): the guarded fetch-and-extract
followed by the padding; the article is returned in every case, so parse is
a total function of its inputs and never raises. -/
def parse (fill : Document → Except String String) (net : Net)
    (full_url : String) (article_id : Nat) : Article :=
  padText (parse_body fill net full_url article_id)

/-!
The corpus directory validation (pipeline.py 53-79).

The filesystem argument of CorpusManager is modelled as the state of the
path it is given: absent, present but not a directory, or a directory whose
entries are files with a name and a byte size.
-/

structure FsFile where
  name : String
  size : Nat
deriving DecidableEq

inductive FsNode where
  | missing
  | nonDirectory
  | directory (files : List FsFile)

/-- The error kinds raised by CorpusManager._validate_dataset: the builtin
FileNotFoundError and NotADirectoryError, and the EmptyDirectoryError and
InconsistentDatasetError of pipeline.py 30-34. -/
inductive DatasetError where
  | fileNotFound
  | notADirectory
  | emptyDirectory
  | inconsistentDataset
deriving DecidableEq

/-- pathlib Path.glob of the pattern star-underscore-raw-dot-txt
(pipeline.py 63): the name ends with _raw.txt.  Unlike the glob module,
Path.glob gives a dot-prefixed name no special treatment, so hidden files
are matched as well. -/
def globRawMatches (name : String) : Bool :=
  charsEndWith name.data "_raw.txt".data

/-- Python re.match applied to the capture pattern of pipeline.py 69: a
nonempty run of leading Unicode decimal digits (the character class of a
backslash-d on str) followed immediately by the literal _raw.txt; the match
is anchored at the start only, so trailing characters after the literal are
allowed.  The greedy digit run cannot backtrack usefully because a shorter
run would be followed by a digit, never by an underscore.  Returns the
captured id, converted by int, which accepts every Unicode decimal digit. -/
def matchRawName (name : String) : Option Nat :=
  let ds := name.data.takeWhile isNdDigit
  if ds = [] then none
  else if charsPre "_raw.txt".data (name.data.drop ds.length) then some (digitsVal ds)
  else none

/-- The per-file loop of _validate_dataset (pipeline.py 67-73): walk the
glob results in order, collect the id of every name the regular expression
matches, and raise InconsistentDatasetError at the first matched file whose
size is zero.  Files the regular expression does not match are skipped
entirely, including the zero-size check. -/
def collectIds : List FsFile → Except DatasetError (List Nat)
  | [] => .ok []
  | f :: fs =>
    match matchRawName f.name with
    | none => collectIds fs
    | some id =>
      if f.size = 0 then .error .inconsistentDataset
      else
        match collectIds fs with
        | .error e => .error e
        | .ok ids => .ok (id :: ids)

/-- Insertion of a number into a sorted list, for the model of Python
sorted applied to the id list. -/
def insertSorted (n : Nat) : List Nat → List Nat
  | [] => [n]
  | m :: ms => if n ≤ m then n :: m :: ms else m :: insertSorted n ms

/-- Python sorted on a list of integers. -/
def sortNat (l : List Nat) : List Nat := l.foldr insertSorted []

/-- Python list(range(1, n + 1)). -/
def upTo (n : Nat) : List Nat := (List.range n).map (· + 1)

/-- CorpusManager._validate_dataset (pipeline.py 53-79): absent path, then
non-directory path, then empty glob result, then the per-file loop, then
the no-valid-ids check of line 75-76, then the dense-range check of
line 78-79. -/
def validate_dataset : FsNode → Except DatasetError Unit
  | .missing => .error .fileNotFound
  | .nonDirectory => .error .notADirectory
  | .directory allFiles =>
    let files := allFiles.filter (fun f => globRawMatches f.name)
    if files.isEmpty then .error .emptyDirectory
    else
      match collectIds files with
      | .error e => .error e
      | .ok ids =>
        if ids.isEmpty then .error .inconsistentDataset
        else if sortNat ids = upTo ids.length then .ok ()
        else .error .inconsistentDataset

/-- Size paired with id for every glob-matched file whose name carries a
valid integer id. -/
def fileIdSize (f : FsFile) : Option (Nat × Nat) :=
  match matchRawName f.name with
  | some id => some (id, f.size)
  | none => none

/-- Modelled from the spec: the section 4.5 open contract in the amended
reading forced by the source — the zero-length rule and the dense-range
rule apply to the files whose name carries a valid integer id (a name
matching the capture pattern), and a directory whose glob matches carry no
valid id at all is an inconsistent dataset. -/
def spec_open_outcome : FsNode → Except DatasetError Unit
  | .missing => .error .fileNotFound
  | .nonDirectory => .error .notADirectory
  | .directory allFiles =>
    let pat := allFiles.filter (fun f => globRawMatches f.name)
    if pat.isEmpty then .error .emptyDirectory
    else
      let idFiles := pat.filterMap fileIdSize
      if idFiles.any (fun p => p.2 == 0) then .error .inconsistentDataset
      else if idFiles.isEmpty then .error .inconsistentDataset
      else if sortNat (idFiles.map Prod.fst) = upTo idFiles.length then .ok ()
      else .error .inconsistentDataset

/-!
Supporting lemmas.
-/

theorem str_length_append (s t : String) : (s ++ t).length = s.length + t.length := by
  cases s with
  | mk a =>
    cases t with
    | mk b =>
      show (a ++ b).length = a.length + b.length
      exact List.length_append a b

theorem mkSpaces_length (n : Nat) : (mkSpaces n).length = n := by
  show (List.replicate n ' ').length = n
  simp

theorem padText_min_length (a : Article) : 50 ≤ (padText a).text.length := by
  rw [padText]
  split
  · rename_i h
    show 50 ≤ (a.text ++ mkSpaces (50 - a.text.length)).length
    rw [str_length_append, mkSpaces_length]
    omega
  · rename_i h
    omega

/-!
Claim theorems.
-/

/-- A network where the first seed answers with status 404 and every other
url answers 200 with a page holding one valid relative article link. -/
def netC1 : Net := fun url =>
  if url = "https://seed-one.test/" then .response 404 ⟨[]⟩
  else .response 200 ⟨["/ok-article"]⟩

/-- C1: the claim says a seed whose fetch returns a non-2xx status is
skipped and discovery continues without raising.  On the code,
make_request calls raise_for_status and re-raises, and find_articles does
not guard the call, so the HTTPError propagates out of find_articles at the
first 404 seed: the run aborts with an empty url list and the second seed
is never fetched.  The skip branch at scraper.py 284-285 is unreachable. -/
theorem C1_non2xx_seed_raises :
    find_articles netC1 ["https://seed-one.test/", "https://seed-two.test/"] 3 10
      = (.raised (.httpError 404) [], [.fetch "https://seed-one.test/"]) := by
  rfl

/-- A network where every url answers 200 with a page whose first anchor is
the relative link /x. -/
def net3 : Net := fun _ => .response 200 ⟨["/x"]⟩

/-- C3: the claim says the discovery result never contains duplicates.  On
the code the _seen_urls set of Crawler.__init__ is never consulted, and
the inner loop re-extracts the same first anchor of the unchanged soup, so
the very same url is appended twice and fills the target of 2. -/
theorem C3_duplicates_not_dropped :
    find_articles net3 ["https://seed.test/"] 2 10
        = (.done ["https://klops.ru/x", "https://klops.ru/x"],
           [.fetch "https://seed.test/"])
      ∧ ¬ List.Nodup ["https://klops.ru/x", "https://klops.ru/x"] := by
  constructor
  · rfl
  · decide

/-- C2: parse always returns a record whose body text has at least 50
characters, for every possible behaviour of the body extraction (including
raising) and every network outcome (transport error, non-2xx status,
success); the embedding of parse is a total function, which is the shallow
form of never raising past its boundary. -/
theorem C2_parse_never_short (fill : Document → Except String String) (net : Net)
    (full_url : String) (article_id : Nat) :
    50 ≤ (parse fill net full_url article_id).text.length :=
  padText_min_length (parse_body fill net full_url article_id)

/-- C10: whenever the text produced by the fetch, the extraction or the
error branches is shorter than 50 characters, parse right-pads it with
space characters to length exactly 50. -/
theorem C10_padding_exact (fill : Document → Except String String) (net : Net)
    (full_url : String) (article_id : Nat)
    (h : (parse_body fill net full_url article_id).text.length < 50) :
    (parse fill net full_url article_id).text
        = (parse_body fill net full_url article_id).text
          ++ mkSpaces (50 - (parse_body fill net full_url article_id).text.length)
      ∧ (parse fill net full_url article_id).text.length = 50 := by
  constructor
  · simp [parse, padText, h]
  · simp [parse, padText, h, str_length_append, mkSpaces_length]
    omega

/-- An extraction that returns the two-character text hi whatever the
document holds. -/
def fillHi : Document → Except String String := fun _ => .ok "hi"

/-- A network where every url answers 200 with an empty page. -/
def netOk : Net := fun _ => .response 200 ⟨[]⟩

theorem C10_padding_exact_witness :
    (parse fillHi netOk "https://u.test/" 1).text
        = (parse_body fillHi netOk "https://u.test/" 1).text
          ++ mkSpaces (50 - (parse_body fillHi netOk "https://u.test/" 1).text.length)
      ∧ (parse fillHi netOk "https://u.test/" 1).text.length = 50 :=
  C10_padding_exact fillHi netOk "https://u.test/" 1 (by decide)

/-- A page whose first (and only) anchor is an absolute link containing the
denylist substring of scraper.py 291. -/
def doc5 : Document := ⟨["https://klops.ru/a?problematic_article_id=3"]⟩

/-- A network where every url answers 200 with that page. -/
def net5 : Net := fun _ => .response 200 doc5

theorem extract_loop_doc5 (fuel : Nat) : extract_loop doc5 1 fuel [] = none := by
  induction fuel with
  | zero => rfl
  | succ n ih =>
    have step : extract_loop doc5 1 (n + 1) [] = extract_loop doc5 1 n [] := rfl
    rw [step]
    exact ih

/-- C5: the claim says discovery always terminates.  On the code the inner
while loop re-extracts the same first anchor of the unchanged soup; when
that anchor contains the denylist substring and the target is unreached,
nothing is ever appended and the loop condition never changes, so the loop
runs forever: for every iteration bound the run is still unfinished. -/
theorem C5_denylisted_link_diverges (fuel : Nat) :
    find_articles net5 ["https://seed.test/"] 1 fuel
      = (.fuelOut [], [.fetch "https://seed.test/"]) := by
  have key : extract_loop doc5 1 fuel [] = none := extract_loop_doc5 fuel
  have unf : find_articles net5 ["https://seed.test/"] 1 fuel
      = (match extract_loop doc5 1 fuel [] with
         | none => (.fuelOut [], [.fetch "https://seed.test/"])
         | some urls2 =>
           find_articles_from net5 1 fuel [] urls2 [.fetch "https://seed.test/"]) := rfl
  rw [unf, key]

theorem extract_loop_length_le (doc : Document) (target : Nat) :
    ∀ fuel urls urls2, urls.length ≤ target →
      extract_loop doc target fuel urls = some urls2 → urls2.length ≤ target := by
  intro fuel
  induction fuel with
  | zero =>
    intro urls urls2 _ hc
    exact absurd hc (by simp [extract_loop])
  | succ n ih =>
    intro urls urls2 h hc
    simp only [extract_loop] at hc
    split at hc
    · rename_i hcond
      split at hc
      · exact ih _ _ h hc
      · refine ih _ _ ?_ hc
        have h2 := hcond.2
        simp only [List.length_append, List.length_cons, List.length_nil]
        omega
    · cases hc
      exact h

theorem find_articles_from_done_le (net : Net) (target fuel : Nat) :
    ∀ seeds urls tr urls2 tr2, urls.length ≤ target →
      find_articles_from net target fuel seeds urls tr = (.done urls2, tr2) →
      urls2.length ≤ target := by
  intro seeds
  induction seeds with
  | nil =>
    intro urls tr urls2 tr2 h hc
    simp only [find_articles_from] at hc
    injection hc with ha hb
    injection ha with hu
    subst hu
    exact h
  | cons seed rest ih =>
    intro urls tr urls2 tr2 h hc
    simp only [find_articles_from] at hc
    split at hc
    · injection hc with ha hb
      injection ha with hu
      subst hu
      exact h
    · rename_i hlt
      split at hc
      · simp at hc
      · split at hc
        · split at hc
          · simp at hc
          · rename_i urls3 hloop
            have hle : urls.length ≤ target := by omega
            exact ih _ _ _ _ (extract_loop_length_le _ target fuel urls urls3 hle hloop) hc
        · exact ih _ _ _ _ h hc

/-- C4: for every network behaviour, seed list, target and iteration bound,
a normally completed discovery returns at most the configured target number
of urls: the seed loop breaks once the target is reached and the inner loop
only appends while the running total is below the target. -/
theorem C4_discovery_bounded (net : Net) (seeds : List String) (target fuel : Nat)
    (urls : List String) (tr : List Event)
    (h : find_articles net seeds target fuel = (.done urls, tr)) :
    urls.length ≤ target :=
  find_articles_from_done_le net target fuel seeds [] [] urls tr (Nat.zero_le target) h

/-- A network where every url answers 200 with a page whose first anchor is
the relative link /a. -/
def net4 : Net := fun _ => .response 200 ⟨["/a"]⟩

theorem C4_discovery_bounded_witness :
    find_articles net4 ["https://seed.test/"] 1 5
        = (.done ["https://klops.ru/a"], [.fetch "https://seed.test/"])
      ∧ (["https://klops.ru/a"] : List String).length ≤ 1 :=
  ⟨rfl, C4_discovery_bounded net4 ["https://seed.test/"] 1 5 _ _ rfl⟩

theorem find_articles_from_sleep_count (net : Net) (target fuel : Nat) :
    ∀ seeds urls tr,
      ((find_articles_from net target fuel seeds urls tr).2).countP Event.isSleepEvent
        = tr.countP Event.isSleepEvent := by
  intro seeds
  induction seeds with
  | nil => intro urls tr; rfl
  | cons seed rest ih =>
    intro urls tr
    simp only [find_articles_from]
    split
    · rfl
    · split
      · simp [List.countP_append, List.countP_cons, Event.isSleepEvent]
      · split
        · split
          · simp [List.countP_append, List.countP_cons, Event.isSleepEvent]
          · rw [ih]
            simp [List.countP_append, List.countP_cons, Event.isSleepEvent]
        · rw [ih]
          simp [List.countP_append, List.countP_cons, Event.isSleepEvent]

/-- C8: the claim says an inter-request delay of at least one second is
applied between consecutive fetches during discovery.  On the code, randint
and sleep are imported but never called: for every network behaviour, seed
list, target and iteration bound the event trace of find_articles contains
no sleep event at all, so in particular no delay separates any pair of
consecutive fetches. -/
theorem C8_no_delay_between_fetches (net : Net) (seeds : List String) (target fuel : Nat) :
    ((find_articles net seeds target fuel).2).countP Event.isSleepEvent = 0 := by
  have h := find_articles_from_sleep_count net target fuel seeds [] []
  simpa using h

/-- A configuration whose header map and seed url list are both of the wrong
type while every other field is valid. -/
def dto6 : ConfigDTO :=
  { seed_urls := .pint 0, total_articles := .pint 10, headers := .pint 0,
    encoding := .pstr "utf-8", timeout := .pint 30,
    should_verify_certificate := .pbool true, headless_mode := .pbool true }

/-- C6 counterexample: the claim says a configuration with both an invalid
seed url list and an invalid header map raises the seed url kind; the code
checks the header map first and raises the headers kind on this input. -/
theorem C6_counterexample :
    validate_config_content dto6 = .error .incorrectHeaders
      ∧ ConfigError.incorrectHeaders ≠ ConfigError.incorrectSeedURL :=
  ⟨rfl, by decide⟩

/-- Modelled from the amended claim: configuration validation as the
first-failing-check semantics in the fixed order of the code — headers map
type, then newline-free header values, then seed url list type, then
per-url pattern, then article count type and positivity, then article count
upper range, then encoding, then timeout, then certificate flag, then
headless flag — written out as that order alone, without the duplicated
(dead) headers check the source repeats after the count checks. -/
def spec_validate_outcome (dto : ConfigDTO) : Except ConfigError Unit :=
  if ¬ pyIsDict dto.headers then .error .incorrectHeaders
  else if (pyDictVals dto.headers).any pyStrHasNL then .error .incorrectHeaders
  else if ¬ pyIsList dto.seed_urls then .error .incorrectSeedURL
  else if ¬ (pyListItems dto.seed_urls).all seedElemOk then .error .incorrectSeedURL
  else if ¬ pyIsInstInt dto.total_articles ∨ pyIsBool dto.total_articles
      ∨ pyIntVal dto.total_articles < 1 then .error .incorrectNumberOfArticles
  else if pyIntVal dto.total_articles > NUM_ARTICLES_UPPER_LIMIT then
    .error .numberOfArticlesOutOfRange
  else if ¬ pyIsStr dto.encoding then .error .incorrectEncoding
  else if ¬ (pyIsInstInt dto.timeout ∧ TIMEOUT_LOWER_LIMIT < pyIntVal dto.timeout
      ∧ pyIntVal dto.timeout < TIMEOUT_UPPER_LIMIT) then .error .incorrectTimeout
  else if ¬ pyIsBool dto.should_verify_certificate then .error .incorrectVerify
  else if ¬ pyIsBool dto.headless_mode then .error .incorrectVerify
  else .ok ()

/-- C6 amended: validation follows the fixed check order of the code —
headers (map type, then newline-free values), then seed urls, then article
count type and positivity, then its upper range, then encoding, then
timeout, then the certificate flag, then the headless flag — so a
configuration with two simultaneous defects deterministically raises the
kind of the first failing check in that order; in particular an invalid
header map together with an invalid seed url list raises the headers kind.
Stated as the pointwise equality of the source validation with the
first-failing-check chain in exactly that order. -/
theorem C6_validation_order (dto : ConfigDTO) :
    validate_config_content dto = spec_validate_outcome dto := by
  by_cases h : pyIsDict dto.headers
  · simp [validate_config_content, spec_validate_outcome, h]
  · simp [validate_config_content, spec_validate_outcome, h]

/-- C7 counterexample: the candidate httpgarbage is neither site-relative
nor an absolute http(s) link, so the claim says it is discarded (empty
extraction).  The code only tests startswith http and passes it through
unchanged and nonempty. -/
theorem C7_counterexample :
    extract_url ⟨["httpgarbage"]⟩ = "httpgarbage"
      ∧ strStartsWith "httpgarbage" "/" = false
      ∧ strStartsWith "httpgarbage" "http://" = false
      ∧ strStartsWith "httpgarbage" "https://" = false
      ∧ "httpgarbage" ≠ "" :=
  ⟨rfl, rfl, rfl, rfl, by decide⟩

/-- C7 amended: resolution of the first candidate link behaves as — a
site-relative path beginning with a slash is prefixed with the site origin;
any candidate beginning with the four characters http (whether or not it is
a well-formed absolute http(s) url) passes through unchanged; every other
candidate, the empty href included, is discarded as non-extractable. -/
theorem C7_resolution (href : String) (rest : List String) :
    (strStartsWith href "/" = true →
        extract_url ⟨href :: rest⟩ = "https://klops.ru" ++ href)
      ∧ (strStartsWith href "/" = false → strStartsWith href "http" = true →
          extract_url ⟨href :: rest⟩ = href)
      ∧ (strStartsWith href "/" = false → strStartsWith href "http" = false →
          extract_url ⟨href :: rest⟩ = "") := by
  refine ⟨?_, ?_, ?_⟩
  · intro h1
    have hne : href ≠ "" := by
      intro he
      subst he
      exact absurd h1 (by decide)
    simp [extract_url, hne, h1]
  · intro h1 h2
    by_cases he : href = ""
    · subst he
      rfl
    · simp [extract_url, he, h1, h2]
  · intro h1 h2
    by_cases he : href = ""
    · subst he
      rfl
    · simp [extract_url, he, h1, h2]

theorem C7_resolution_witness :
    extract_url ⟨["/news/politics/1"]⟩ = "https://klops.ru" ++ "/news/politics/1"
      ∧ extract_url ⟨["httpquery2"]⟩ = "httpquery2"
      ∧ extract_url ⟨["ftp://files.test/"]⟩ = "" :=
  ⟨(C7_resolution "/news/politics/1" []).1 rfl,
   (C7_resolution "httpquery2" []).2.1 rfl rfl,
   (C7_resolution "ftp://files.test/" []).2.2 rfl rfl⟩

/-- C9 counterexample: the file a_raw.txt matches the raw-file glob pattern
and has size zero, so the claim says opening the directory fails with the
inconsistent-dataset kind; the code applies the zero-length check only to
files whose name the id-capturing regular expression matches, skips
a_raw.txt entirely, and succeeds. -/
theorem C9_counterexample :
    validate_dataset (.directory [⟨"1_raw.txt", 120⟩, ⟨"a_raw.txt", 0⟩]) = .ok ()
      ∧ globRawMatches "a_raw.txt" = true
      ∧ (FsFile.mk "a_raw.txt" 0).size = 0 :=
  ⟨rfl, rfl, rfl⟩

theorem collectIds_spec (l : List FsFile) :
    collectIds l =
      if (l.filterMap fileIdSize).any (fun p => p.2 == 0) then
        .error .inconsistentDataset
      else .ok ((l.filterMap fileIdSize).map Prod.fst) := by
  induction l with
  | nil => rfl
  | cons f fs ih =>
    cases hm : matchRawName f.name with
    | none =>
      have hf : fileIdSize f = none := by simp [fileIdSize, hm]
      have hcons : (f :: fs).filterMap fileIdSize = fs.filterMap fileIdSize := by
        simp [List.filterMap_cons, hf]
      simp only [collectIds, hm, hcons]
      exact ih
    | some id =>
      have hf : fileIdSize f = some (id, f.size) := by simp [fileIdSize, hm]
      have hcons : (f :: fs).filterMap fileIdSize
          = (id, f.size) :: fs.filterMap fileIdSize := by
        simp [List.filterMap_cons, hf]
      by_cases hz : f.size = 0
      · simp only [collectIds, hm, hcons, hz]
        simp
      · simp only [collectIds, hm, hcons, if_neg hz, ih]
        by_cases ha : (fs.filterMap fileIdSize).any (fun p => p.2 == 0)
        · simp [ha, hz]
        · simp [ha, hz]

/-- C9 amended: opening a corpus directory fails with the
directory-not-found kind if the path is absent, the not-a-directory kind if
it is not a directory, the empty-directory kind if no file matches the
raw-file glob pattern, and the inconsistent-dataset kind if any
glob-matching file whose name carries a valid integer id is zero-length, if
no glob-matching file carries a valid id at all, or if the sorted id list
is not exactly the dense range from 1 to the number of id-carrying files;
otherwise it succeeds.  Stated as the pointwise equality of the source
validation with a definition that follows the amended wording. -/
theorem C9_open_contract (fs : FsNode) : validate_dataset fs = spec_open_outcome fs := by
  cases fs with
  | missing => rfl
  | nonDirectory => rfl
  | directory allFiles =>
    simp only [validate_dataset, spec_open_outcome]
    by_cases hempty : (allFiles.filter (fun f => globRawMatches f.name)).isEmpty
    · simp [hempty]
    · simp only [hempty, Bool.false_eq_true, if_false]
      rw [collectIds_spec]
      by_cases hz : ((allFiles.filter (fun f => globRawMatches f.name)).filterMap
          fileIdSize).any (fun p => p.2 == 0)
      · simp [hz]
      · simp only [hz, Bool.false_eq_true, if_false]
        cases hxs : (allFiles.filter (fun f => globRawMatches f.name)).filterMap
            fileIdSize with
        | nil => simp
        | cons p ps => simp [List.length_map]
